import Mathlib

set_option linter.unusedVariables false

/-!
Verification of the node-endpoint layer of a network-emulation server:
a shallow embedding of `src/gns3server/endpoints/compute/dynamips_nodes.py`
and `src/gns3server/endpoints/compute/ethernet_hub_nodes.py`.  The backend
classes these endpoints call (`Router`, `EthernetHub`, the `Dynamips`
manager) are not part of the source tree; where a property depends on them
they are modelled from the specification, each such definition marked
`Modelled from the spec:`.
-/

namespace GNS3

/-- HTTP 201, the `status.HTTP_201_CREATED` constant used by the creation
endpoints' decorators. -/
def HTTP_201_CREATED : Nat := 201

/-- HTTP 204, the `status.HTTP_204_NO_CONTENT` constant used by the
success-with-no-body endpoints' decorators. -/
def HTTP_204_NO_CONTENT : Nat := 204

/-- Python exception values observable at the endpoint boundary. -/
inductive Exc where
  | GeneratorExit : Exc
  | DynamipsError : String → Exc
  | InvalidStateError : Exc
  | NotFoundError : Exc
  | SlotOccupiedError : Exc
  | NoNioError : Exc
  | AlreadyCapturingError : Exc
  | NotCapturingError : Exc
  deriving DecidableEq

/-- A created UDP NIO (network input/output transport endpoint): the UDP
tunnel fields of `schemas.UDPNIO` plus `nid`, the object identity of the
created NIO (two distinct NIO objects never share a `nid`). -/
structure Nio where
  nid : Nat
  lport : Nat
  rhost : String
  rport : Nat
  filters : List String
  deriving DecidableEq

/-- The request body of the NIO endpoints (`schemas.UDPNIO` as a descriptor,
before a NIO object is created from it). -/
structure NioData where
  lport : Nat
  rhost : String
  rport : Nat
  filters : List String
  deriving DecidableEq

/-- The request body of the capture endpoints (`schemas.NodeCapture`).
The file name is a Python string, kept as its list of code points because
the Windows path check below is about code-point values. -/
structure NodeCapture where
  capture_file_name : List Nat
  data_link_type : String
  deriving DecidableEq

/-- `os.path.join(dir, name)` on POSIX paths (code-point lists, `/` is 47):
an absolute `name` replaces `dir`; otherwise a separator is inserted unless
`dir` is empty or already ends in one. -/
def ospath_join (dir fname : List Nat) : List Nat :=
  if fname.head? = some 47 then fname
  else if dir = [] ∨ dir.getLast? = some 47 then dir ++ fname
  else dir ++ 47 :: fname

/-- `str.encode('ascii')` succeeds exactly when every code point is below
128. -/
def asciiOnly (path : List Nat) : Bool := path.all (fun c => c < 128)

end GNS3

namespace GNS3.EthernetHubNodes

/-- The observable state of one Ethernet hub node: name, ports mapping,
the port-number-indexed NIO binding table (the hub has a single adapter,
so slots are addressed by port number alone), the active capture sessions
(capture file path and data-link type per port), the id the next created
NIO will receive, and the project's capture working directory. -/
structure HubState where
  node_id : Nat
  name : String
  ports_mapping : List Nat
  bindings : List (Nat × GNS3.Nio)
  captures : List (Nat × (List Nat × String))
  nextNid : Nat
  captureDir : List Nat
  deriving DecidableEq

/-- Modelled from the spec: `Dynamips.create_nio` (the NIO Registry `create`
of §4.1) is not under src/; it validates the UDP descriptor and allocates a
fresh transport endpoint.  Freshness of identity comes from the state's
counter. -/
def dynamips_create_nio (d : GNS3.NioData) (s : HubState) : GNS3.Nio × HubState :=
  (⟨s.nextNid, d.lport, d.rhost, d.rport, d.filters⟩, { s with nextNid := s.nextNid + 1 })

/-- Modelled from the spec: `EthernetHub.add_nio` is not under src/; per
§4.2 a bind onto an occupied slot fails `SlotOccupiedError`, otherwise the
binding is recorded. -/
def hub_add_nio (nio : GNS3.Nio) (port : Nat) (s : HubState) : Except GNS3.Exc HubState :=
  if (s.bindings.lookup port).isSome then .error .SlotOccupiedError
  else .ok { s with bindings := (port, nio) :: s.bindings }

/-- Modelled from the spec: `EthernetHub.remove_nio` is not under src/; per
§4.2 an unbind on an empty slot fails `NotFoundError`, otherwise the bound
NIO itself is returned; per §3 a capture session cannot outlive its NIO, so
the port's capture session is dropped with the binding. -/
def hub_remove_nio (port : Nat) (s : HubState) : Except GNS3.Exc (GNS3.Nio × HubState) :=
  match s.bindings.lookup port with
  | none => .error .NotFoundError
  | some nio => .ok (nio, { s with
      bindings := s.bindings.filter (fun b => b.1 != port),
      captures := s.captures.filter (fun c => c.1 != port) })

/-- Modelled from the spec: `EthernetHub.start_capture` is not under src/;
per §4.3 it fails `NoNioError` on an unbound port, `AlreadyCapturingError`
when a session already exists, and otherwise registers the session. -/
def hub_backend_start_capture (port : Nat) (path : List Nat) (dlt : String) (s : HubState) :
    Except GNS3.Exc HubState :=
  if (s.bindings.lookup port).isNone then .error .NoNioError
  else if (s.captures.lookup port).isSome then .error .AlreadyCapturingError
  else .ok { s with captures := (port, (path, dlt)) :: s.captures }

/-- Modelled from the spec: `EthernetHub.stop_capture` is not under src/;
per §4.3 it fails `NotCapturingError` when no session exists, otherwise
deregisters the session. -/
def hub_backend_stop_capture (port : Nat) (s : HubState) : Except GNS3.Exc HubState :=
  if (s.captures.lookup port).isNone then .error .NotCapturingError
  else .ok { s with captures := s.captures.filter (fun c => c.1 != port) }

/-- Modelled from the spec: `EthernetHub.get_nio` is not under src/; it
resolves the NIO bound to a port, failing when the port is unbound. -/
def hub_get_nio (port : Nat) (s : HubState) : Except GNS3.Exc GNS3.Nio :=
  match s.bindings.lookup port with
  | none => .error .NotFoundError
  | some nio => .ok nio

/-- `start_ethernet_hub`: the handler body is `pass` and the decorator
declares status 204 — the node is returned untouched. -/
def start_ethernet_hub (s : HubState) : Nat × HubState :=
  (GNS3.HTTP_204_NO_CONTENT, s)

/-- `stop_ethernet_hub`: the handler body is `pass` and the decorator
declares status 204 — the node is returned untouched. -/
def stop_ethernet_hub (s : HubState) : Nat × HubState :=
  (GNS3.HTTP_204_NO_CONTENT, s)

/-- `suspend_ethernet_hub`: the handler body is `pass` and the decorator
declares status 204 — the node is returned untouched. -/
def suspend_ethernet_hub (s : HubState) : Nat × HubState :=
  (GNS3.HTTP_204_NO_CONTENT, s)

/-- `create_nio` of the hub endpoints: creates the NIO from the descriptor
and binds it to `port_number`; the `adapter_number` path parameter is
accepted by the route but never used (the hub's adapter number is always
0).  Decorator status 201; the created NIO is the response body. -/
def create_nio (adapter_number port_number : Nat) (nio_data : GNS3.NioData) (s : HubState) :
    Except GNS3.Exc (Nat × GNS3.Nio × HubState) := do
  let (nio, s1) := dynamips_create_nio nio_data s
  let s2 ← hub_add_nio nio port_number s1
  return (GNS3.HTTP_201_CREATED, nio, s2)

/-- `delete_nio` of the hub endpoints: removes the binding at `port_number`
and deletes the returned NIO (releasing its transport, which has no
representation in this state); `adapter_number` is accepted but unused.
Decorator status 204. -/
def delete_nio (adapter_number port_number : Nat) (s : HubState) :
    Except GNS3.Exc (Nat × HubState) := do
  let (_nio, s1) ← hub_remove_nio port_number s
  return (GNS3.HTTP_204_NO_CONTENT, s1)

/-- `start_capture` of the hub endpoints: joins the project's capture
working directory with the requested file name and starts a capture on
`port_number`; `adapter_number` is accepted but unused.  The response body
carries the pcap file path. -/
def start_capture (adapter_number port_number : Nat) (node_capture_data : GNS3.NodeCapture)
    (s : HubState) : Except GNS3.Exc (List Nat × HubState) := do
  let pcap_file_path := GNS3.ospath_join s.captureDir node_capture_data.capture_file_name
  let s1 ← hub_backend_start_capture port_number pcap_file_path node_capture_data.data_link_type s
  return (pcap_file_path, s1)

/-- `stop_capture` of the hub endpoints: stops the capture on
`port_number`; `adapter_number` is accepted but unused.  Decorator status
204. -/
def stop_capture (adapter_number port_number : Nat) (s : HubState) :
    Except GNS3.Exc (Nat × HubState) := do
  let s1 ← hub_backend_stop_capture port_number s
  return (GNS3.HTTP_204_NO_CONTENT, s1)

/-- `stream_pcap_file` of the hub endpoints: resolves the NIO bound to
`port_number` and opens a streaming response on its capture file (the
stream itself is outside the state; the response is determined by the
resolved NIO); `adapter_number` is accepted but unused. -/
def stream_pcap_file (adapter_number port_number : Nat) (s : HubState) :
    Except GNS3.Exc GNS3.Nio :=
  hub_get_nio port_number s

end GNS3.EthernetHubNodes

namespace GNS3.DynamipsNodes

/-- Lifecycle states of §4.4: `DEFINED`, `RUNNING`, `SUSPENDED`. -/
inductive NodeStatus where
  | DEFINED : NodeStatus
  | RUNNING : NodeStatus
  | SUSPENDED : NodeStatus
  deriving DecidableEq

/-- The observable state of one Dynamips router node: identity, lifecycle
status, platform, the persisted idle-pc setting, the slot-indexed NIO
binding table (slots are (adapter_number, port_number) pairs), the active
capture sessions, the id the next created NIO will receive, and the
project's capture working directory. -/
structure RouterState where
  node_id : Nat
  status : NodeStatus
  platform : String
  idlepc : String
  bindings : List ((Nat × Nat) × GNS3.Nio)
  captures : List ((Nat × Nat) × (List Nat × String))
  nextNid : Nat
  captureDir : List Nat
  deriving DecidableEq

/-- `DEFAULT_CHASSIS`: the per-platform default chassis table of the
endpoint module. -/
def DEFAULT_CHASSIS : List (String × String) :=
  [("c1700", "1720"), ("c2600", "2610"), ("c3600", "3640")]

/-- The fields of `schemas.DynamipsCreate` the chassis logic reads:
`chassis` is `none` when the request leaves the field unset. -/
structure DynamipsCreate where
  name : String
  platform : String
  chassis : Option String
  deriving DecidableEq

/-- Python truthiness of an optional string: `not node_data.chassis` is
true when the field is `None` or the empty string. -/
def pyFalsy : Option String → Bool
  | none => true
  | some s => s = ""

/-- What `create_router` hands to the backend about the chassis: the
`chassis=` keyword argument of the `create_node` call, and the `chassis`
entry (if any) left in the settings dict passed to `update_vm_settings`
right after creation (with `exclude_unset`, the entry is present exactly
when the request set the field; `create_router` never pops it). -/
structure CreateRouterCall where
  create_chassis : Option String
  update_settings_chassis : Option String
  deriving DecidableEq

/-- `create_router`'s chassis flow: the local `chassis` starts as `None`
and becomes the platform's default only when the request's chassis is
falsy and the platform has a default; the request's own chassis value
stays in the settings dict applied by `update_vm_settings`. -/
def create_router (node_data : DynamipsCreate) : CreateRouterCall :=
  let chassis : Option String :=
    if pyFalsy node_data.chassis ∧ (DEFAULT_CHASSIS.lookup node_data.platform).isSome then
      DEFAULT_CHASSIS.lookup node_data.platform
    else none
  { create_chassis := chassis, update_settings_chassis := node_data.chassis }

/-- The chassis value the backend is left with after the two calls
`create_node(chassis=...)` then `update_vm_settings(settings)`: a chassis
entry in the update settings overrides the creation argument. -/
def backend_chassis (c : CreateRouterCall) : Option String :=
  match c.update_settings_chassis with
  | some v => some v
  | none => c.create_chassis

/-- Modelled from the spec: `Dynamips.create_nio` (the NIO Registry
`create` of §4.1) is not under src/; it validates the UDP descriptor and
allocates a fresh transport endpoint, fresh identity coming from the
state's counter. -/
def dynamips_create_nio (d : GNS3.NioData) (s : RouterState) : GNS3.Nio × RouterState :=
  (⟨s.nextNid, d.lport, d.rhost, d.rport, d.filters⟩, { s with nextNid := s.nextNid + 1 })

/-- Modelled from the spec: `Router.get_nio` is not under src/; it resolves
the NIO bound to a slot, failing when the slot is unbound. -/
def router_get_nio (a p : Nat) (s : RouterState) : Except GNS3.Exc GNS3.Nio :=
  match s.bindings.lookup (a, p) with
  | none => .error .NotFoundError
  | some nio => .ok nio

/-- Modelled from the spec: `Router.slot_add_nio_binding` is not under
src/; per §4.2 a bind onto an occupied slot fails `SlotOccupiedError`,
otherwise the binding is recorded. -/
def slot_add_nio_binding (a p : Nat) (nio : GNS3.Nio) (s : RouterState) :
    Except GNS3.Exc RouterState :=
  if (s.bindings.lookup (a, p)).isSome then .error .SlotOccupiedError
  else .ok { s with bindings := ((a, p), nio) :: s.bindings }

/-- Modelled from the spec: `Router.slot_update_nio_binding` is not under
src/; per §4.2 `replace` atomically unbinds then binds, leaving the given
NIO bound to the slot. -/
def slot_update_nio_binding (a p : Nat) (nio : GNS3.Nio) (s : RouterState) : RouterState :=
  { s with bindings := ((a, p), nio) :: s.bindings.filter (fun b => b.1 != (a, p)) }

/-- Modelled from the spec: `Router.slot_remove_nio_binding` is not under
src/; per §4.2 an unbind on an empty slot fails `NotFoundError`, otherwise
the bound NIO itself is returned; per §3 a capture session cannot outlive
its NIO, so the slot's capture session is dropped with the binding. -/
def slot_remove_nio_binding (a p : Nat) (s : RouterState) :
    Except GNS3.Exc (GNS3.Nio × RouterState) :=
  match s.bindings.lookup (a, p) with
  | none => .error .NotFoundError
  | some nio => .ok (nio, { s with
      bindings := s.bindings.filter (fun b => b.1 != (a, p)),
      captures := s.captures.filter (fun c => c.1 != (a, p)) })

/-- Modelled from the spec: `Router.set_idlepc` is not under src/; per
§4.6 `apply` it persists the given idle-pc value onto the node's
settings. -/
def set_idlepc (v : String) (s : RouterState) : RouterState :=
  { s with idlepc := v }

/-- Modelled from the spec: `Router.start` is not under src/; per §4.4 it
fails `InvalidStateError` unless the node is `DEFINED`, delegates to the
backend driver (whose outcome is the `driver` argument), and on driver
failure the node remains `DEFINED` with the error surfaced verbatim.  The
result pairs the state after the call with the exception it raised, if
any. -/
def router_start (driver : Except GNS3.Exc Unit) (s : RouterState) :
    RouterState × Option GNS3.Exc :=
  if s.status = .DEFINED then
    match driver with
    | .ok _ => ({ s with status := .RUNNING }, none)
    | .error e => (s, some e)
  else (s, some .InvalidStateError)

/-- `start_router`: runs `Dynamips.ghost_ios_support` (outcome `ghost`)
inside a `try` that swallows `GeneratorExit` and re-raises anything else,
then awaits `node.start()`.  Decorator status 204. -/
def start_router (ghost : Except GNS3.Exc Unit) (driver : Except GNS3.Exc Unit)
    (s : RouterState) : RouterState × Option GNS3.Exc :=
  match ghost with
  | .error e => if e = .GeneratorExit then router_start driver s else (s, some e)
  | .ok _ => router_start driver s

/-- `create_nio` of the router endpoints: creates the NIO from the
descriptor and binds it to slot (`adapter_number`, `port_number`).
Decorator status 201; the created NIO is the response body. -/
def create_nio (adapter_number port_number : Nat) (nio_data : GNS3.NioData)
    (s : RouterState) : Except GNS3.Exc (Nat × GNS3.Nio × RouterState) := do
  let (nio, s1) := dynamips_create_nio nio_data s
  let s2 ← slot_add_nio_binding adapter_number port_number nio s1
  return (GNS3.HTTP_201_CREATED, nio, s2)

/-- `update_nio` of the router endpoints: fetches the NIO currently bound
to the slot, overwrites its `filters` with the request's filters when
those are truthy (non-empty), re-applies the binding with that same NIO,
and returns it as the response body.  Decorator status 201. -/
def update_nio (adapter_number port_number : Nat) (nio_data : GNS3.NioData)
    (s : RouterState) : Except GNS3.Exc (Nat × GNS3.Nio × RouterState) := do
  let nio ← router_get_nio adapter_number port_number s
  let nio := if nio_data.filters ≠ [] then { nio with filters := nio_data.filters } else nio
  let s1 := slot_update_nio_binding adapter_number port_number nio s
  return (GNS3.HTTP_201_CREATED, nio, s1)

/-- `delete_nio` of the router endpoints: removes the binding at the slot
and deletes the returned NIO (releasing its transport, which has no
representation in this state).  Decorator status 204. -/
def delete_nio (adapter_number port_number : Nat) (s : RouterState) :
    Except GNS3.Exc (Nat × RouterState) := do
  let (_nio, s1) ← slot_remove_nio_binding adapter_number port_number s
  return (GNS3.HTTP_204_NO_CONTENT, s1)

/-- The error message `start_capture` raises for a non-ASCII capture path
on Windows (the path is interpolated into the message). -/
def nonAsciiMsg (path : List Nat) : String :=
  "The capture file path \"" ++ String.mk (path.map Char.ofNat) ++
    "\" must only contain ASCII (English) characters"

/-- `start_capture` of the router endpoints: joins the project's capture
working directory with the requested file name; on Windows
(`sys.platform.startswith('win')`), raises `DynamipsError` when the joined
path does not encode to ASCII, before anything else happens; otherwise
awaits `node.start_capture(...)` — that `Router` method is not under src/
and is passed as the `backend` argument.  The response body carries the
pcap file path. -/
def start_capture (isWindows : Bool)
    (backend : Nat → Nat → List Nat → String → RouterState → Except GNS3.Exc RouterState)
    (adapter_number port_number : Nat) (node_capture_data : GNS3.NodeCapture)
    (s : RouterState) : Except GNS3.Exc (List Nat × RouterState) := do
  let pcap_file_path := GNS3.ospath_join s.captureDir node_capture_data.capture_file_name
  if isWindows && !(GNS3.asciiOnly pcap_file_path) then
    throw (.DynamipsError (nonAsciiMsg pcap_file_path))
  else
    let s1 ← backend adapter_number port_number pcap_file_path
      node_capture_data.data_link_type s
    return (pcap_file_path, s1)

/-- Modelled from the spec: `Router.start_capture` is not under src/; per
§4.3 it fails `NoNioError` on an unbound slot, `AlreadyCapturingError`
when a session already exists, and otherwise registers the session.  Used
as a concrete instance of the `backend` argument of `start_capture`. -/
def router_backend_start_capture (a p : Nat) (path : List Nat) (dlt : String)
    (s : RouterState) : Except GNS3.Exc RouterState :=
  if (s.bindings.lookup (a, p)).isNone then .error .NoNioError
  else if (s.captures.lookup (a, p)).isSome then .error .AlreadyCapturingError
  else .ok { s with captures := ((a, p), (path, dlt)) :: s.captures }

/-- `get_idlepcs` (the idle-pc proposals endpoint): first awaits
`node.set_idlepc("0x0")`, then returns `node.get_idle_pc_prop()` — that
sampling method is not under src/ and, per §4.6 (`propose` runs the
backend's sampling procedure and returns ranked candidates), is passed as
the state-preserving `sampler` argument. -/
def get_idlepcs (sampler : RouterState → List String) (s : RouterState) :
    List String × RouterState :=
  let s1 := set_idlepc "0x0" s
  (sampler s1, s1)

/-- Rebinds a binding list onto fresh NIO identities, numbering them `n`,
`n+1`, ...; each slot keeps its place and its NIO's transport fields. -/
def freshBindings (n : Nat) : List ((Nat × Nat) × GNS3.Nio) → List ((Nat × Nat) × GNS3.Nio)
  | [] => []
  | (slot, nio) :: rest => (slot, { nio with nid := n }) :: freshBindings (n + 1) rest

/-- Modelled from the spec: `Dynamips.duplicate_node` is not under src/;
per §3 and §4.4 `duplicate` deep-copies the configuration and slot
bindings onto fresh NIOs, gives the new node the requested destination
identity, copies no capture session, and the new node starts `DEFINED`
regardless of the source's state. -/
def duplicate_node (s : RouterState) (destination_node_id : Nat) : RouterState :=
  { s with
    node_id := destination_node_id,
    status := .DEFINED,
    bindings := freshBindings s.nextNid s.bindings,
    captures := [],
    nextNid := s.nextNid + s.bindings.length }

/-- `duplicate_router`: awaits `Dynamips.duplicate_node` on the source
node and the destination id, returning the new node.  Decorator status
201. -/
def duplicate_router (destination_node_id : Nat) (s : RouterState) : Nat × RouterState :=
  (GNS3.HTTP_201_CREATED, duplicate_node s destination_node_id)

end GNS3.DynamipsNodes

namespace GNS3

/-- The routes declared by the two endpoint modules (the router console
websocket route carries no status decorator and is omitted). -/
inductive Endpoint where
  | create_router | get_router | update_router | delete_router
  | start_router | stop_router | suspend_router | resume_router | reload_router
  | create_nio_router | update_nio_router | delete_nio_router
  | start_capture_router | stop_capture_router | stream_pcap_router
  | get_idlepcs | get_auto_idlepc | duplicate_router | reset_console_router
  | create_hub | get_hub | duplicate_hub | update_hub | delete_hub
  | start_hub | stop_hub | suspend_hub
  | create_nio_hub | delete_nio_hub | start_capture_hub | stop_capture_hub
  | stream_pcap_hub
  deriving DecidableEq

/-- The success status each route's decorator declares (FastAPI's default
of 200 where the decorator names none, as on the GET routes and on the
router and hub `start_capture`, which return a JSON body). -/
def successStatus : Endpoint → Nat
  | .create_router => 201
  | .get_router => 200
  | .update_router => 200
  | .delete_router => 204
  | .start_router => 204
  | .stop_router => 204
  | .suspend_router => 204
  | .resume_router => 204
  | .reload_router => 204
  | .create_nio_router => 201
  | .update_nio_router => 201
  | .delete_nio_router => 204
  | .start_capture_router => 200
  | .stop_capture_router => 204
  | .stream_pcap_router => 200
  | .get_idlepcs => 200
  | .get_auto_idlepc => 200
  | .duplicate_router => 201
  | .reset_console_router => 204
  | .create_hub => 201
  | .get_hub => 200
  | .duplicate_hub => 201
  | .update_hub => 200
  | .delete_hub => 204
  | .start_hub => 204
  | .stop_hub => 204
  | .suspend_hub => 204
  | .create_nio_hub => 201
  | .delete_nio_hub => 204
  | .start_capture_hub => 200
  | .stop_capture_hub => 204
  | .stream_pcap_hub => 200

/-- Whether the route's `responses` declare the 404 "could not find
project or node" error model: every route resolving a node through
`dep_node` does; the two creation routes (which resolve no node) do
not. -/
def declares404 : Endpoint → Bool
  | .create_router => false
  | .create_hub => false
  | _ => true

/-- Whether the route's `responses` declare the 409 "could not create
node" conflict error model: exactly the two node-creation routes do. -/
def declares409 : Endpoint → Bool
  | .create_router => true
  | .create_hub => true
  | _ => false

end GNS3

deriving instance DecidableEq for Except

namespace GNS3.DynamipsNodes

/-- A sample router node used by concrete instantiations: `DEFINED`, a
persisted idle-pc, no bindings. -/
def r0 : RouterState :=
  { node_id := 1, status := .DEFINED, platform := "c3600", idlepc := "0x60529004",
    bindings := [], captures := [], nextNid := 0, captureDir := [47, 116, 109, 112] }

/-- A sample NIO bound on `rBound`. -/
def nioA : GNS3.Nio := ⟨5, 1000, "127.0.0.1", 2000, []⟩

/-- A sample router node with slot (0, 0) bound to `nioA`. -/
def rBound : RouterState := { r0 with bindings := [((0, 0), nioA)], nextNid := 6 }

/-- A sample NIO descriptor sent by a caller (differs from `nioA` in every
transport field and carries a non-empty filter set). -/
def nioDataB : GNS3.NioData := ⟨3000, "10.0.0.1", 4000, ["frequency_drop"]⟩

/-- The NIO `create_nio` builds from `nioDataB` on `r0`. -/
def nioC : GNS3.Nio := ⟨0, 3000, "10.0.0.1", 4000, ["frequency_drop"]⟩

/-- The state `create_nio 0 0 nioDataB r0` leaves behind. -/
def rAfterCreate : RouterState := { r0 with bindings := [((0, 0), nioC)], nextNid := 1 }

end GNS3.DynamipsNodes

namespace GNS3

open GNS3.EthernetHubNodes GNS3.DynamipsNodes

/-- C1: for every Ethernet hub node, the `start`, `stop` and `suspend`
endpoints return HTTP 204 and leave the node's state and configuration
completely unchanged. -/
theorem C1_hub_lifecycle_noops (s : HubState) :
    start_ethernet_hub s = (204, s) ∧ stop_ethernet_hub s = (204, s) ∧
      suspend_ethernet_hub s = (204, s) :=
  ⟨rfl, rfl, rfl⟩

/-- C9: on the Ethernet hub, every slot-addressed endpoint (`create_nio`,
`delete_nio`, `start_capture`, `stop_capture`, `stream_pcap_file`) is
invariant under the `adapter_number` path parameter: two invocations that
differ only in `adapter_number` produce identical responses and states. -/
theorem C9_hub_adapter_number_ignored (a1 a2 p : Nat) (d : NioData) (cap : NodeCapture)
    (s : HubState) :
    EthernetHubNodes.create_nio a1 p d s = EthernetHubNodes.create_nio a2 p d s ∧
    EthernetHubNodes.delete_nio a1 p s = EthernetHubNodes.delete_nio a2 p s ∧
    EthernetHubNodes.start_capture a1 p cap s = EthernetHubNodes.start_capture a2 p cap s ∧
    EthernetHubNodes.stop_capture a1 p s = EthernetHubNodes.stop_capture a2 p s ∧
    EthernetHubNodes.stream_pcap_file a1 p s = EthernetHubNodes.stream_pcap_file a2 p s :=
  ⟨rfl, rfl, rfl, rfl, rfl⟩

/-- C8: every resource-creating route (node create, NIO create, duplicate)
declares status 201; every success-with-no-body route (delete, start,
stop, suspend, resume, reload, NIO delete, stop capture, console reset)
declares 204; every node-addressed route declares the 404 missing
node/project error model; the creation routes declare the 409 conflict
error model. -/
theorem C8_status_mapping :
    (successStatus .create_router = 201 ∧ successStatus .create_hub = 201 ∧
     successStatus .create_nio_router = 201 ∧ successStatus .create_nio_hub = 201 ∧
     successStatus .duplicate_router = 201 ∧ successStatus .duplicate_hub = 201) ∧
    (successStatus .delete_router = 204 ∧ successStatus .delete_hub = 204 ∧
     successStatus .start_router = 204 ∧ successStatus .start_hub = 204 ∧
     successStatus .stop_router = 204 ∧ successStatus .stop_hub = 204 ∧
     successStatus .suspend_router = 204 ∧ successStatus .suspend_hub = 204 ∧
     successStatus .resume_router = 204 ∧ successStatus .reload_router = 204 ∧
     successStatus .delete_nio_router = 204 ∧ successStatus .delete_nio_hub = 204 ∧
     successStatus .stop_capture_router = 204 ∧ successStatus .stop_capture_hub = 204 ∧
     successStatus .reset_console_router = 204) ∧
    (∀ ep : Endpoint, ep ≠ .create_router → ep ≠ .create_hub → declares404 ep = true) ∧
    (declares409 .create_router = true ∧ declares409 .create_hub = true) := by
  refine ⟨by decide, by decide, ?_, by decide⟩
  intro ep h1 h2
  cases ep <;> first | rfl | exact absurd rfl h1 | exact absurd rfl h2

/-- C5 counterexample: on a node whose persisted idle-pc is
"0x60529004", the idle-pc proposals endpoint (with a sampler returning no
candidate) leaves the stored idle-pc different from its value before the
call — the endpoint first runs `set_idlepc "0x0"`. -/
theorem C5_counterexample :
    (get_idlepcs (fun _ => []) r0).2.idlepc ≠ r0.idlepc := by
  decide

/-- C5 (amended): the idle-pc proposals endpoint first persists the
idle-pc value "0x0" onto the node, then runs the backend sampler on the
updated node and returns its candidates; after the call the stored
idle-pc is "0x0" and every other setting is unchanged. -/
theorem C5_get_idlepcs_resets_idlepc (sampler : RouterState → List String)
    (s : RouterState) :
    (get_idlepcs sampler s).1 = sampler (set_idlepc "0x0" s) ∧
    (get_idlepcs sampler s).2 = { s with idlepc := "0x0" } :=
  ⟨rfl, rfl⟩

end GNS3

namespace GNS3

open GNS3.DynamipsNodes

/-- C2 counterexample: a concrete start of a `DEFINED` router in which the
ghost-IOS preparation step raises `GeneratorExit` and the driver succeeds:
`start_router` surfaces no error at all (the exception from the
preparation step is silently swallowed) and the node starts anyway. -/
theorem C2_counterexample :
    (start_router (.error .GeneratorExit) (.ok ()) r0).2 = none ∧
    (start_router (.error .GeneratorExit) (.ok ()) r0).1.status = .RUNNING := by
  decide

/-- C2 (amended): every error raised while performing start is surfaced
unmodified, except a `GeneratorExit` raised by the ghost-IOS preparation
step, which is swallowed and start proceeds; when the preparation step
succeeds (or raised only `GeneratorExit`), a driver failure on a
`DEFINED` node is surfaced verbatim with the node left exactly as it was
(still `DEFINED`), and the whole call behaves as `router_start`. -/
theorem C2_start_router_error_propagation (ghost driver : Except Exc Unit)
    (s : RouterState) :
    (∀ e : Exc, ghost = .error e → e ≠ .GeneratorExit →
      start_router ghost driver s = (s, some e)) ∧
    ((ghost = .ok () ∨ ghost = .error .GeneratorExit) →
      start_router ghost driver s = router_start driver s) ∧
    (∀ e : Exc, (ghost = .ok () ∨ ghost = .error .GeneratorExit) →
      driver = .error e → s.status = .DEFINED →
      start_router ghost driver s = (s, some e)) := by
  refine ⟨?_, ?_, ?_⟩
  · intro e hg hne
    subst hg
    simp [start_router, hne]
  · rintro (hg | hg) <;> subst hg <;> simp [start_router]
  · rintro e (hg | hg) hd hs <;> subst hg <;> subst hd <;>
      simp [start_router, router_start, hs]

/-- C10: on Windows, `start_capture` on a Dynamips router fails with the
`DynamipsError` about ASCII paths whenever the joined capture file path
holds a code point outside ASCII, and it does so before the backend's
capture machinery is ever invoked (the outcome is the same for every
possible backend, and no state is produced); on non-Windows platforms the
check is skipped entirely and the call is exactly the backend capture
flow on the joined path. -/
theorem C10_start_capture_windows_ascii
    (backend : Nat → Nat → List Nat → String → RouterState → Except Exc RouterState)
    (a p : Nat) (cap : NodeCapture) (s : RouterState) :
    (asciiOnly (ospath_join s.captureDir cap.capture_file_name) = false →
      DynamipsNodes.start_capture true backend a p cap s =
        .error (.DynamipsError
          (nonAsciiMsg (ospath_join s.captureDir cap.capture_file_name)))) ∧
    (DynamipsNodes.start_capture false backend a p cap s =
      (backend a p (ospath_join s.captureDir cap.capture_file_name)
          cap.data_link_type s).map
        (fun s1 => (ospath_join s.captureDir cap.capture_file_name, s1))) := by
  constructor
  · intro h
    simp [DynamipsNodes.start_capture, h, throw, throwThe, MonadExceptOf.throw]
  · cases hb : backend a p (ospath_join s.captureDir cap.capture_file_name)
        cap.data_link_type s <;>
      simp [DynamipsNodes.start_capture, hb, Except.map]

end GNS3

namespace GNS3

open GNS3.DynamipsNodes

/-- Filtering out every pair whose key is `k` leaves nothing for `lookup k`
to find. -/
theorem lookup_filter_bne {α β : Type} [BEq α] [LawfulBEq α] (k : α)
    (l : List (α × β)) : (l.filter (fun b => b.1 != k)).lookup k = none := by
  induction l with
  | nil => rfl
  | cons b t ih =>
    obtain ⟨b1, b2⟩ := b
    by_cases hb : b1 = k
    · have hf : ((b1, b2).1 != k) = false := by simp [hb]
      simpa [List.filter_cons, hf] using ih
    · have ht : ((b1, b2).1 != k) = true := by simp [hb]
      have hk : (k == b1) = false := beq_eq_false_iff_ne.mpr (Ne.symm hb)
      simp only [List.filter_cons, ht, if_true]
      simp only [List.lookup, hk]
      exact ih

/-- C3 counterexample: slot (0, 0) of `rBound` holds `nioA` (local port
1000); a caller invokes the NIO update endpoint with `nioDataB` (local
port 3000).  The NIO left bound by the update does not carry the caller's
local port: the endpoint never binds the NIO supplied by the caller. -/
theorem C3_counterexample :
    ((update_nio 0 0 nioDataB rBound).toOption.bind
        (fun r => r.2.2.bindings.lookup (0, 0))).map GNS3.Nio.lport ≠
      some nioDataB.lport := by
  decide

/-- C3 (amended): the NIO update endpoint keeps the previously bound NIO
in place: it fetches the NIO bound to the slot, overwrites that NIO's
packet filters with the caller's when they are non-empty, re-applies the
binding with that same NIO (same identity), and returns it as the
response; the caller-supplied NIO is never bound, and the old NIO is
neither handed back for disposal nor deleted — it stays bound. -/
theorem C3_update_nio_keeps_bound_nio (a p : Nat) (d : NioData) (s : RouterState)
    (nio : Nio) (h : router_get_nio a p s = .ok nio) :
    update_nio a p d s = .ok (201,
      (if d.filters ≠ [] then { nio with filters := d.filters } else nio),
      slot_update_nio_binding a p
        (if d.filters ≠ [] then { nio with filters := d.filters } else nio) s) ∧
    (slot_update_nio_binding a p
        (if d.filters ≠ [] then { nio with filters := d.filters } else nio)
        s).bindings.lookup (a, p) =
      some (if d.filters ≠ [] then { nio with filters := d.filters } else nio) ∧
    (if d.filters ≠ [] then { nio with filters := d.filters } else nio).nid = nio.nid := by
  refine ⟨?_, ?_, ?_⟩
  · simp [update_nio, h, GNS3.HTTP_201_CREATED]
  · simp [slot_update_nio_binding, List.lookup]
  · split <;> rfl

/-- C3 witness: the amended statement at the concrete input of the
counterexample. -/
theorem C3_update_nio_keeps_bound_nio_witness :
    update_nio 0 0 nioDataB rBound = .ok (201,
      (if nioDataB.filters ≠ [] then { nioA with filters := nioDataB.filters } else nioA),
      slot_update_nio_binding 0 0
        (if nioDataB.filters ≠ [] then { nioA with filters := nioDataB.filters } else nioA)
        rBound) ∧
    (slot_update_nio_binding 0 0
        (if nioDataB.filters ≠ [] then { nioA with filters := nioDataB.filters } else nioA)
        rBound).bindings.lookup (0, 0) =
      some (if nioDataB.filters ≠ [] then { nioA with filters := nioDataB.filters } else nioA) ∧
    (if nioDataB.filters ≠ [] then { nioA with filters := nioDataB.filters } else nioA).nid =
      nioA.nid :=
  C3_update_nio_keeps_bound_nio 0 0 nioDataB rBound nioA rfl

/-- C4: binding a freshly created NIO to a slot through the router's NIO
creation endpoint and then unbinding the same slot returns exactly the
NIO that was bound — same identity, no substitution or copy — and the
slot ends up empty; the deletion endpoint then reports 204 on that very
state. -/
theorem C4_bind_unbind_roundtrip (a p : Nat) (d : NioData) (s : RouterState)
    (st : Nat) (nio : Nio) (s1 : RouterState)
    (h : DynamipsNodes.create_nio a p d s = .ok (st, nio, s1)) :
    ∃ s2 : RouterState, slot_remove_nio_binding a p s1 = .ok (nio, s2) ∧
      s2.bindings.lookup (a, p) = none ∧
      DynamipsNodes.delete_nio a p s1 = .ok (204, s2) := by
  unfold DynamipsNodes.create_nio dynamips_create_nio slot_add_nio_binding at h
  cases hocc : s.bindings.lookup (a, p) with
  | some x => simp [hocc] at h
  | none =>
    simp [hocc, GNS3.HTTP_201_CREATED] at h
    obtain ⟨hst, hnio, hs1⟩ := h
    subst hnio
    subst hs1
    refine ⟨{ s with
              nextNid := s.nextNid + 1
              bindings :=
                (((a, p),
                    (⟨s.nextNid, d.lport, d.rhost, d.rport, d.filters⟩ : Nio)) ::
                  s.bindings).filter (fun b => b.1 != (a, p))
              captures := s.captures.filter (fun c => c.1 != (a, p)) }, ?_, ?_, ?_⟩
    · simp [slot_remove_nio_binding, List.lookup]
    · exact lookup_filter_bne (a, p) _
    · simp [DynamipsNodes.delete_nio, slot_remove_nio_binding, List.lookup,
        GNS3.HTTP_204_NO_CONTENT]

/-- C4 witness: the round trip at the concrete input `nioDataB` on the
empty-slotted `r0`, where the created NIO is `nioC`. -/
theorem C4_bind_unbind_roundtrip_witness :
    ∃ s2 : RouterState, slot_remove_nio_binding 0 0 rAfterCreate = .ok (nioC, s2) ∧
      s2.bindings.lookup (0, 0) = none ∧
      DynamipsNodes.delete_nio 0 0 rAfterCreate = .ok (204, s2) :=
  C4_bind_unbind_roundtrip 0 0 nioDataB r0 201 nioC rAfterCreate rfl

end GNS3

namespace GNS3

open GNS3.DynamipsNodes

/-- `freshBindings` keeps every slot address in place. -/
theorem freshBindings_map_fst (n : Nat) (l : List ((Nat × Nat) × Nio)) :
    (freshBindings n l).map Prod.fst = l.map Prod.fst := by
  induction l generalizing n with
  | nil => rfl
  | cons b t ih =>
    cases b
    simp [freshBindings, ih]

/-- `freshBindings` keeps every NIO's transport fields. -/
theorem freshBindings_fields (n : Nat) (l : List ((Nat × Nat) × Nio)) :
    (freshBindings n l).map (fun b => (b.2.lport, b.2.rhost, b.2.rport, b.2.filters)) =
      l.map (fun b => (b.2.lport, b.2.rhost, b.2.rport, b.2.filters)) := by
  induction l generalizing n with
  | nil => rfl
  | cons b t ih =>
    cases b
    simp [freshBindings, ih]

/-- Every NIO produced by `freshBindings n` carries an identity at least
`n`. -/
theorem freshBindings_nid_ge (n : Nat) (l : List ((Nat × Nat) × Nio)) :
    ∀ b ∈ freshBindings n l, n ≤ b.2.nid := by
  induction l generalizing n with
  | nil =>
    intro b hb
    cases hb
  | cons c t ih =>
    obtain ⟨slot, nio⟩ := c
    intro b hb
    simp only [freshBindings, List.mem_cons] at hb
    rcases hb with hb | hb
    · subst hb
      exact Nat.le_refl n
    · exact Nat.le_trans (Nat.le_succ n) (ih (n + 1) b hb)

/-- C6: for every source router whose bound NIO identities are below the
allocation counter (the allocator's invariant), `duplicate_node` produces
a node with the requested destination identity, in the `DEFINED` state,
with the source's configuration, the same slots bound, each NIO keeping
its transport fields but carrying a fresh identity shared with no NIO of
the source, and no capture session; the duplication endpoint returns it
with status 201. -/
theorem C6_duplicate_fresh (s : RouterState) (dest : Nat)
    (hwf : ∀ b ∈ s.bindings, b.2.nid < s.nextNid) :
    (duplicate_node s dest).node_id = dest ∧
    (duplicate_node s dest).status = .DEFINED ∧
    (duplicate_node s dest).platform = s.platform ∧
    (duplicate_node s dest).idlepc = s.idlepc ∧
    (duplicate_node s dest).captures = [] ∧
    (duplicate_node s dest).bindings.map Prod.fst = s.bindings.map Prod.fst ∧
    (duplicate_node s dest).bindings.map
        (fun b => (b.2.lport, b.2.rhost, b.2.rport, b.2.filters)) =
      s.bindings.map (fun b => (b.2.lport, b.2.rhost, b.2.rport, b.2.filters)) ∧
    (∀ b ∈ (duplicate_node s dest).bindings, ∀ b2 ∈ s.bindings, b.2.nid ≠ b2.2.nid) ∧
    duplicate_router dest s = (201, duplicate_node s dest) := by
  refine ⟨rfl, rfl, rfl, rfl, rfl, freshBindings_map_fst _ _, freshBindings_fields _ _,
    ?_, rfl⟩
  intro b hb b2 hb2
  have h1 : s.nextNid ≤ b.2.nid := freshBindings_nid_ge s.nextNid s.bindings b hb
  have h2 : b2.2.nid < s.nextNid := hwf b2 hb2
  omega

/-- C6 witness: duplicating the running-state-independent sample `rBound`
(one bound slot, NIO identity 5, counter 6) onto destination id 9. -/
theorem C6_duplicate_fresh_witness :
    (duplicate_node rBound 9).node_id = 9 ∧
    (duplicate_node rBound 9).status = .DEFINED ∧
    (duplicate_node rBound 9).platform = rBound.platform ∧
    (duplicate_node rBound 9).idlepc = rBound.idlepc ∧
    (duplicate_node rBound 9).captures = [] ∧
    (duplicate_node rBound 9).bindings.map Prod.fst = rBound.bindings.map Prod.fst ∧
    (duplicate_node rBound 9).bindings.map
        (fun b => (b.2.lport, b.2.rhost, b.2.rport, b.2.filters)) =
      rBound.bindings.map (fun b => (b.2.lport, b.2.rhost, b.2.rport, b.2.filters)) ∧
    (∀ b ∈ (duplicate_node rBound 9).bindings, ∀ b2 ∈ rBound.bindings,
      b.2.nid ≠ b2.2.nid) ∧
    duplicate_router 9 rBound = (201, duplicate_node rBound 9) :=
  C6_duplicate_fresh rBound 9 (by decide)

/-- C7: a create request with no chassis on platform c1700, c2600 or
c3600 passes the platform's default chassis (1720, 2610, 3640) to the
backend's `create_node`; a supplied chassis reaches the backend unchanged
(through the settings applied right after creation); on any other
platform with no chassis, no chassis is handed to the backend at all. -/
theorem C7_default_chassis (nd : DynamipsCreate) :
    (nd.chassis = none → nd.platform = "c1700" →
      (create_router nd).create_chassis = some "1720") ∧
    (nd.chassis = none → nd.platform = "c2600" →
      (create_router nd).create_chassis = some "2610") ∧
    (nd.chassis = none → nd.platform = "c3600" →
      (create_router nd).create_chassis = some "3640") ∧
    (∀ c, nd.chassis = some c → backend_chassis (create_router nd) = some c) ∧
    (nd.chassis = none → nd.platform ≠ "c1700" → nd.platform ≠ "c2600" →
      nd.platform ≠ "c3600" →
      (create_router nd).create_chassis = none ∧
      (create_router nd).update_settings_chassis = none) := by
  refine ⟨?_, ?_, ?_, ?_, ?_⟩
  · intro h1 h2
    simp only [create_router, h1, h2]
    decide
  · intro h1 h2
    simp only [create_router, h1, h2]
    decide
  · intro h1 h2
    simp only [create_router, h1, h2]
    decide
  · intro c hc
    simp [create_router, backend_chassis, hc]
  · intro h1 h2 h3 h4
    have e1 : (nd.platform == "c1700") = false := beq_eq_false_iff_ne.mpr h2
    have e2 : (nd.platform == "c2600") = false := beq_eq_false_iff_ne.mpr h3
    have e3 : (nd.platform == "c3600") = false := beq_eq_false_iff_ne.mpr h4
    have hlk : DEFAULT_CHASSIS.lookup nd.platform = none := by
      simp [DEFAULT_CHASSIS, List.lookup, e1, e2, e3]
    constructor
    · simp [create_router, h1, hlk]
    · simp [create_router, h1]

end GNS3
